import Mathlib

/-!
Verification of the IntelliOS database server (`src/server.py`).

The server is a thin HTTP façade over a document store keyed by username.
We embed the store as an association list from username (the Firestore
document id) to the account document, and each of the five endpoints as a
pure function from the store and the request fields to a pair of the HTTP
result and the store after the request.  `HttpResult.ok` is an HTTP 200
response carrying the endpoint's body; `HttpResult.error c d` is a raised
`HTTPException` with status code `c` and detail `d`.
-/

namespace IntelliOS

/-- JSON-like values: the opaque workspace state (`Dict[str, Any]` payloads). -/
inductive Json where
  | null : Json
  | bool : Bool → Json
  | num : Int → Json
  | str : String → Json
  | arr : List Json → Json
  | obj : List (String × Json) → Json

/-- An account document in the `DDNA` collection, as written by `signup`:
`{username, password, name, email, workspaces}`. -/
structure Account where
  username : String
  password : String
  name : String
  email : String
  workspaces : List (String × Json)

/-- The `DDNA` collection: document id (the username) to account document. -/
abbrev Store := List (String × Account)

/-- `db.collection("DDNA").document(u).get()`: point lookup by document id. -/
def dbGet : Store → String → Option Account
  | [], _ => none
  | (k, a) :: rest, u => if k = u then some a else dbGet rest u

/-- `db.collection("DDNA").document(u).set(data)`: create or overwrite the
document with id `u`. -/
def dbSet : Store → String → Account → Store
  | [], u, a => [(u, a)]
  | (k, b) :: rest, u, a =>
      if k = u then (u, a) :: rest else (k, b) :: dbSet rest u a

/-- `doc_ref.update({"workspaces": ws})`: overwrite only the `workspaces`
field of the document with id `u`, leaving every other document and every
other field untouched. -/
def dbUpdateWorkspaces : Store → String → List (String × Json) → Store
  | [], _, _ => []
  | (k, a) :: rest, u, ws =>
      if k = u then (k, { a with workspaces := ws }) :: rest
      else (k, a) :: dbUpdateWorkspaces rest u ws

/-- Python dict lookup `workspaces[w]` / `workspaces.get(w)`. -/
def wsLookup : List (String × Json) → String → Option Json
  | [], _ => none
  | (k, v) :: rest, w => if k = w then some v else wsLookup rest w

/-- Python dict assignment `workspaces[w] = s`: replace the entry in place
if the key is present, append it otherwise. -/
def wsInsert : List (String × Json) → String → Json → List (String × Json)
  | [], w, s => [(w, s)]
  | (k, v) :: rest, w, s =>
      if k = w then (w, s) :: rest else (k, v) :: wsInsert rest w s

/-- Python `del workspaces[w]`: remove the entry with key `w`. -/
def wsErase (ws : List (String × Json)) (w : String) : List (String × Json) :=
  ws.filter (fun p => p.1 != w)

/-- Python `w in workspaces`: key membership. -/
def wsMember (ws : List (String × Json)) (w : String) : Bool :=
  (wsLookup ws w).isSome

/-- Outcome of a request: an HTTP 200 response with body `α`, or a raised
`HTTPException` with a status code and a detail string. -/
inductive HttpResult (α : Type) where
  | ok : α → HttpResult α
  | error : Nat → String → HttpResult α

/-- The HTTP status code of a result (FastAPI returns 200 for a normal
response body). -/
def httpCode {α : Type} : HttpResult α → Nat
  | .ok _ => 200
  | .error c _ => c

/-- Body of `LoginResponse`. -/
structure LoginBody where
  status : String
  message : String
  workspaces : Option (List (String × Json))

/-- Body of `SignupResponse`. -/
structure SignupBody where
  status : String
  message : String

/-- Body of `CreateWorkspaceResponse`. -/
structure CreateWorkspaceBody where
  status : String
  message : String

/-- Body of `GetWorkspacesResponse`. -/
structure GetWorkspacesBody where
  status : String
  workspaces : List (String × Json)

/-- Body of `DeleteWorkspaceResponse`. -/
structure DeleteWorkspaceBody where
  status : String
  message : String

/-- `POST /api/login`: fetch the user document; unknown username and wrong
password are domain errors in a 200 body; success returns the stored
workspaces map. -/
def login (db : Store) (username password : String) :
    HttpResult LoginBody × Store :=
  match dbGet db username with
  | none => (.ok ⟨"error", "Username not found", none⟩, db)
  | some user_data =>
      if user_data.password ≠ password then
        (.ok ⟨"error", "Incorrect Password", none⟩, db)
      else
        (.ok ⟨"success", "Successful", some user_data.workspaces⟩, db)

/-- `POST /api/signup`: duplicate username is a domain error in a 200 body;
otherwise create the document with an empty workspaces map. -/
def signup (db : Store) (username password name email : String) :
    HttpResult SignupBody × Store :=
  match dbGet db username with
  | some _ => (.ok ⟨"error", "Username already exists"⟩, db)
  | none =>
      let user_data : Account :=
        { username := username, password := password, name := name
          email := email, workspaces := [] }
      (.ok ⟨"success", "Account created successfully"⟩,
       dbSet db username user_data)

/-- Success message of the workspace upsert endpoint. -/
def wsUpsertMsg (w : String) : String :=
  "Workspace \x27" ++ w ++ "\x27 created/updated successfully"

/-- 404 detail for a missing workspace on delete. -/
def wsNotFoundMsg (w : String) : String :=
  "Workspace \x27" ++ w ++ "\x27 not found"

/-- Success message of the workspace delete endpoint. -/
def wsDeleteMsg (w : String) : String :=
  "Workspace \x27" ++ w ++ "\x27 deleted successfully"

/-- `POST /api/workspace`: 404 for an unknown user; otherwise read-modify-write
of the `workspaces` field with `workspaces[name] = state`. -/
def create_update_workspace (db : Store) (username workspace_name : String)
    (state : Json) : HttpResult CreateWorkspaceBody × Store :=
  match dbGet db username with
  | none => (.error 404 "User not found", db)
  | some user_data =>
      let workspaces := wsInsert user_data.workspaces workspace_name state
      (.ok ⟨"success", wsUpsertMsg workspace_name⟩,
       dbUpdateWorkspaces db username workspaces)

/-- `POST /api/workspaces`: 404 for an unknown user; otherwise return the
stored workspaces map verbatim. -/
def get_all_workspaces (db : Store) (username : String) :
    HttpResult GetWorkspacesBody × Store :=
  match dbGet db username with
  | none => (.error 404 "User not found", db)
  | some user_data => (.ok ⟨"success", user_data.workspaces⟩, db)

/-- `DELETE /api/workspace`: 404 for an unknown user or an absent workspace
key; otherwise read-modify-write with `del workspaces[name]`. -/
def delete_workspace (db : Store) (username workspace_name : String) :
    HttpResult DeleteWorkspaceBody × Store :=
  match dbGet db username with
  | none => (.error 404 "User not found", db)
  | some user_data =>
      if wsMember user_data.workspaces workspace_name then
        let workspaces := wsErase user_data.workspaces workspace_name
        (.ok ⟨"success", wsDeleteMsg workspace_name⟩,
         dbUpdateWorkspaces db username workspaces)
      else
        (.error 404 (wsNotFoundMsg workspace_name), db)

/-- The workspaces map returned by the list endpoint (empty if it raised). -/
def getWs (db : Store) (u : String) : List (String × Json) :=
  match (get_all_workspaces db u).1 with
  | .ok b => b.workspaces
  | .error _ _ => []

/-- The profile fields of an account: everything except `workspaces`. -/
def profileOf (a : Account) : String × String × String × String :=
  (a.username, a.password, a.name, a.email)

/-- A login result is a domain error when the 200 body carries
`status = "error"`. -/
def loginIsDomainError (r : HttpResult LoginBody) : Bool :=
  match r with
  | .ok b => b.status == "error"
  | .error _ _ => false

/-- A signup result is a domain error when the 200 body carries
`status = "error"`. -/
def signupIsDomainError (r : HttpResult SignupBody) : Bool :=
  match r with
  | .ok b => b.status == "error"
  | .error _ _ => false

/-- A result is an HTTP 404 rejection. -/
def isHttp404 {α : Type} : HttpResult α → Bool
  | .ok _ => false
  | .error c _ => c == 404

/-- Sample account used to instantiate the theorems. -/
def sampleAccount : Account :=
  { username := "alice", password := "pw", name := "Alice"
    email := "a@x.com", workspaces := [("w", Json.null)] }

/-- Sample one-user store used to instantiate the theorems. -/
def sampleDb : Store := [("alice", sampleAccount)]

/-- Setting a document makes it the one returned by a lookup of its id. -/
theorem dbGet_dbSet_self (db : Store) (u : String) (a : Account) :
    dbGet (dbSet db u a) u = some a := by
  induction db with
  | nil => simp [dbSet, dbGet]
  | cons hd tl ih =>
    obtain ⟨k, b⟩ := hd
    by_cases h : k = u
    · simp [dbSet, dbGet, h]
    · simp [dbSet, dbGet, h, ih]

/-- Setting a document leaves lookups of other ids unchanged. -/
theorem dbGet_dbSet_ne (db : Store) (u : String) (a : Account) (u' : String)
    (h : u' ≠ u) : dbGet (dbSet db u a) u' = dbGet db u' := by
  induction db with
  | nil => simp [dbSet, dbGet, Ne.symm h]
  | cons hd tl ih =>
    obtain ⟨k, b⟩ := hd
    by_cases hk : k = u
    · subst hk
      simp [dbSet, dbGet, Ne.symm h]
    · simp [dbSet, dbGet, hk, ih]

/-- Overwriting the `workspaces` field of document `t` changes exactly that
field of that document. -/
theorem dbGet_dbUpdateWorkspaces_self (db : Store) (t : String)
    (ws : List (String × Json)) :
    dbGet (dbUpdateWorkspaces db t ws) t =
      (dbGet db t).map (fun a => { a with workspaces := ws }) := by
  induction db with
  | nil => simp [dbUpdateWorkspaces, dbGet]
  | cons hd tl ih =>
    obtain ⟨k, b⟩ := hd
    by_cases h : k = t
    · simp [dbUpdateWorkspaces, dbGet, h]
    · simp [dbUpdateWorkspaces, dbGet, h, ih]

/-- Overwriting the `workspaces` field of document `t` leaves every other
document unchanged. -/
theorem dbGet_dbUpdateWorkspaces_ne (db : Store) (t : String)
    (ws : List (String × Json)) (u : String) (h : u ≠ t) :
    dbGet (dbUpdateWorkspaces db t ws) u = dbGet db u := by
  induction db with
  | nil => simp [dbUpdateWorkspaces]
  | cons hd tl ih =>
    obtain ⟨k, b⟩ := hd
    by_cases hk : k = t
    · subst hk
      simp [dbUpdateWorkspaces, dbGet, Ne.symm h]
    · simp [dbUpdateWorkspaces, dbGet, hk, ih]

/-- Setting a document never makes another document disappear. -/
theorem dbGet_dbSet_isSome (db : Store) (u : String) (a : Account)
    (u' : String) (h : (dbGet db u').isSome) :
    (dbGet (dbSet db u a) u').isSome := by
  by_cases he : u' = u
  · subst he
    simp [dbGet_dbSet_self]
  · rw [dbGet_dbSet_ne db u a u' he]
    exact h

/-- Overwriting a `workspaces` field never makes a document disappear. -/
theorem dbGet_dbUpdateWorkspaces_isSome (db : Store) (t : String)
    (ws : List (String × Json)) (u' : String) (h : (dbGet db u').isSome) :
    (dbGet (dbUpdateWorkspaces db t ws) u').isSome := by
  by_cases he : u' = t
  · subst he
    rw [dbGet_dbUpdateWorkspaces_self]
    simpa using h
  · rw [dbGet_dbUpdateWorkspaces_ne db t ws u' he]
    exact h

/-- Overwriting a `workspaces` field preserves the profile fields of every
document. -/
theorem profile_dbUpdateWorkspaces (db : Store) (t : String)
    (ws : List (String × Json)) (u : String) :
    (dbGet (dbUpdateWorkspaces db t ws) u).map profileOf =
      (dbGet db u).map profileOf := by
  by_cases he : u = t
  · subst he
    rw [dbGet_dbUpdateWorkspaces_self]
    cases dbGet db u <;> simp [profileOf]
  · rw [dbGet_dbUpdateWorkspaces_ne db t ws u he]

/-- Dict assignment stores the assigned value under the assigned key. -/
theorem wsLookup_wsInsert_self (ws : List (String × Json)) (w : String)
    (s : Json) : wsLookup (wsInsert ws w s) w = some s := by
  induction ws with
  | nil => simp [wsInsert, wsLookup]
  | cons hd tl ih =>
    obtain ⟨k, v⟩ := hd
    by_cases h : k = w
    · simp [wsInsert, wsLookup, h]
    · simp [wsInsert, wsLookup, h, ih]

/-- Dict assignment leaves every other key's entry unchanged. -/
theorem wsLookup_wsInsert_ne (ws : List (String × Json)) (w : String)
    (s : Json) (w' : String) (h : w' ≠ w) :
    wsLookup (wsInsert ws w s) w' = wsLookup ws w' := by
  induction ws with
  | nil => simp [wsInsert, wsLookup, Ne.symm h]
  | cons hd tl ih =>
    obtain ⟨k, v⟩ := hd
    by_cases hk : k = w
    · subst hk
      simp [wsInsert, wsLookup, Ne.symm h]
    · simp [wsInsert, wsLookup, hk, ih]

/-- Deleting a key removes its entry. -/
theorem wsLookup_wsErase_self (ws : List (String × Json)) (w : String) :
    wsLookup (wsErase ws w) w = none := by
  induction ws with
  | nil => simp [wsErase, wsLookup]
  | cons hd tl ih =>
    obtain ⟨k, v⟩ := hd
    simp only [wsErase, List.filter_cons] at ih ⊢
    by_cases h : k = w
    · subst h
      simpa using ih
    · simp [bne_iff_ne, h, wsLookup, ih]

/-- Deleting a key leaves every other key's entry unchanged. -/
theorem wsLookup_wsErase_ne (ws : List (String × Json)) (w : String)
    (w' : String) (h : w' ≠ w) :
    wsLookup (wsErase ws w) w' = wsLookup ws w' := by
  induction ws with
  | nil => simp [wsErase, wsLookup]
  | cons hd tl ih =>
    obtain ⟨k, v⟩ := hd
    simp only [wsErase, List.filter_cons] at ih ⊢
    by_cases hk : k = w
    · subst hk
      simp [wsLookup, Ne.symm h, ih]
    · simp [bne_iff_ne, hk, wsLookup, ih]

/-- `login` never writes to the store, whatever the request. -/
theorem login_store_eq (db : Store) (u p : String) : (login db u p).2 = db := by
  unfold login
  split
  · rfl
  · split <;> rfl

/-- `get_all_workspaces` never writes to the store, whatever the request. -/
theorem get_all_workspaces_store_eq (db : Store) (u : String) :
    (get_all_workspaces db u).2 = db := by
  unfold get_all_workspaces
  cases h : dbGet db u <;> rfl

/-- Claim C1: for a username absent from the store, signup returns a success
body, and a subsequent login with the same credentials returns a success
body carrying an empty workspaces map. -/
theorem C1_signup_then_login (db : Store) (u p n e : String)
    (h : dbGet db u = none) :
    (signup db u p n e).1 = .ok ⟨"success", "Account created successfully"⟩ ∧
    (login (signup db u p n e).2 u p).1 =
      .ok ⟨"success", "Successful", some []⟩ := by
  constructor
  · simp [signup, h]
  · simp [signup, h, login, dbGet_dbSet_self]

/-- Witness for C1 on the empty store. -/
theorem C1_witness :
    dbGet ([] : Store) "a" = none ∧
    ((signup [] "a" "p" "n" "e").1 =
        .ok ⟨"success", "Account created successfully"⟩ ∧
     (login (signup [] "a" "p" "n" "e").2 "a" "p").1 =
        .ok ⟨"success", "Successful", some []⟩) :=
  ⟨rfl, C1_signup_then_login [] "a" "p" "n" "e" rfl⟩

/-- After a successful upsert, the user's document holds the same profile
fields and the updated workspaces map. -/
theorem upsert_dbGet (db : Store) (u W : String) (S : Json) (a : Account)
    (h : dbGet db u = some a) :
    dbGet (create_update_workspace db u W S).2 u =
      some { a with workspaces := wsInsert a.workspaces W S } := by
  simp [create_update_workspace, h, dbGet_dbUpdateWorkspaces_self]

/-- Claim C2: upserting workspace `W` with state `S` for an existing user and
then listing yields an entry `W ↦ S`, the state stored and returned verbatim;
upserting `W` again with `S2` makes the whole entry equal `S2`. -/
theorem C2_upsert_stores_verbatim_and_overwrites (db : Store) (u W : String)
    (S S2 : Json) (a : Account) (h : dbGet db u = some a) :
    wsLookup (getWs (create_update_workspace db u W S).2 u) W = some S ∧
    wsLookup (getWs (create_update_workspace
        (create_update_workspace db u W S).2 u W S2).2 u) W = some S2 := by
  have h1 := upsert_dbGet db u W S a h
  have h2 := upsert_dbGet (create_update_workspace db u W S).2 u W S2 _ h1
  constructor
  · simp [getWs, get_all_workspaces, h1, wsLookup_wsInsert_self]
  · simp [getWs, get_all_workspaces, h2, wsLookup_wsInsert_self]

/-- Witness for C2 on the sample store. -/
theorem C2_witness :
    dbGet sampleDb "alice" = some sampleAccount ∧
    (wsLookup (getWs (create_update_workspace sampleDb "alice" "proj"
        (Json.num 1)).2 "alice") "proj" = some (Json.num 1) ∧
     wsLookup (getWs (create_update_workspace (create_update_workspace
        sampleDb "alice" "proj" (Json.num 1)).2 "alice" "proj"
        (Json.num 2)).2 "alice") "proj" = some (Json.num 2)) :=
  ⟨rfl, C2_upsert_stores_verbatim_and_overwrites sampleDb "alice" "proj"
    (Json.num 1) (Json.num 2) sampleAccount rfl⟩

/-- Claim C3: signup with an existing username answers HTTP 200 with an
error body saying the username exists, and leaves the whole store — in
particular the existing account document — unchanged. -/
theorem C3_signup_duplicate (db : Store) (u p n e : String) (a : Account)
    (h : dbGet db u = some a) :
    httpCode (signup db u p n e).1 = 200 ∧
    (signup db u p n e).1 = .ok ⟨"error", "Username already exists"⟩ ∧
    (signup db u p n e).2 = db := by
  refine ⟨?_, ?_, ?_⟩ <;> simp [signup, h, httpCode]

/-- Witness for C3 on the sample store. -/
theorem C3_witness :
    dbGet sampleDb "alice" = some sampleAccount ∧
    (httpCode (signup sampleDb "alice" "q" "r" "s").1 = 200 ∧
     (signup sampleDb "alice" "q" "r" "s").1 =
        .ok ⟨"error", "Username already exists"⟩ ∧
     (signup sampleDb "alice" "q" "r" "s").2 = sampleDb) :=
  ⟨rfl, C3_signup_duplicate sampleDb "alice" "q" "r" "s" sampleAccount rfl⟩

/-- Claim C4: login failures are HTTP 200 with an error body: an unknown
username yields "Username not found", a wrong password for an existing
account yields "Incorrect Password", and neither returns workspace data. -/
theorem C4_login_failures (db : Store) (u p : String) :
    (dbGet db u = none →
      httpCode (login db u p).1 = 200 ∧
      (login db u p).1 = .ok ⟨"error", "Username not found", none⟩) ∧
    (∀ a, dbGet db u = some a → a.password ≠ p →
      httpCode (login db u p).1 = 200 ∧
      (login db u p).1 = .ok ⟨"error", "Incorrect Password", none⟩) := by
  constructor
  · intro h
    constructor <;> simp [login, h, httpCode]
  · intro a h hp
    constructor <;> simp [login, h, hp, httpCode]

/-- Witness for C4: an unknown user and a wrong password on the sample
store. -/
theorem C4_witness :
    (httpCode (login sampleDb "bob" "pw").1 = 200 ∧
     (login sampleDb "bob" "pw").1 =
        .ok ⟨"error", "Username not found", none⟩) ∧
    (httpCode (login sampleDb "alice" "bad").1 = 200 ∧
     (login sampleDb "alice" "bad").1 =
        .ok ⟨"error", "Incorrect Password", none⟩) :=
  ⟨(C4_login_failures sampleDb "bob" "pw").1 rfl,
   (C4_login_failures sampleDb "alice" "bad").2 sampleAccount rfl
     (by decide)⟩

/-- After a successful delete, the user's document holds the same profile
fields and the workspaces map without the deleted key. -/
theorem delete_dbGet (db : Store) (u W : String) (a : Account)
    (h : dbGet db u = some a) (hm : wsMember a.workspaces W = true) :
    dbGet (delete_workspace db u W).2 u =
      some { a with workspaces := wsErase a.workspaces W } := by
  simp [delete_workspace, h, hm, dbGet_dbUpdateWorkspaces_self]

/-- Claim C5: for an existing user, deleting an absent workspace answers
HTTP 404 with a detail naming the workspace; deleting a present workspace
answers a success body, and a subsequent listing no longer contains it. -/
theorem C5_delete_semantics (db : Store) (u W : String) (a : Account)
    (h : dbGet db u = some a) :
    (wsLookup a.workspaces W = none →
      (delete_workspace db u W).1 = .error 404 (wsNotFoundMsg W)) ∧
    (∀ S, wsLookup a.workspaces W = some S →
      (delete_workspace db u W).1 = .ok ⟨"success", wsDeleteMsg W⟩ ∧
      wsLookup (getWs (delete_workspace db u W).2 u) W = none) := by
  constructor
  · intro hn
    simp [delete_workspace, h, wsMember, hn]
  · intro S hS
    have hm : wsMember a.workspaces W = true := by simp [wsMember, hS]
    have hd := delete_dbGet db u W a h hm
    constructor
    · simp [delete_workspace, h, hm]
    · simp [getWs, get_all_workspaces, hd, wsLookup_wsErase_self]

/-- Witness for C5: a missing and a present workspace on the sample store. -/
theorem C5_witness :
    ((delete_workspace sampleDb "alice" "nope").1 =
        .error 404 (wsNotFoundMsg "nope")) ∧
    ((delete_workspace sampleDb "alice" "w").1 =
        .ok ⟨"success", wsDeleteMsg "w"⟩ ∧
     wsLookup (getWs (delete_workspace sampleDb "alice" "w").2 "alice") "w" =
        none) :=
  ⟨(C5_delete_semantics sampleDb "alice" "nope" sampleAccount rfl).1 rfl,
   (C5_delete_semantics sampleDb "alice" "w" sampleAccount rfl).2
     Json.null rfl⟩

/-- Claim C6: for an unknown username, the three workspace endpoints answer
HTTP 404, while login answers HTTP 200 with a domain-error body. -/
theorem C6_unknown_user (db : Store) (u p W : String) (S : Json)
    (h : dbGet db u = none) :
    (create_update_workspace db u W S).1 = .error 404 "User not found" ∧
    (get_all_workspaces db u).1 = .error 404 "User not found" ∧
    (delete_workspace db u W).1 = .error 404 "User not found" ∧
    httpCode (login db u p).1 = 200 ∧
    (login db u p).1 = .ok ⟨"error", "Username not found", none⟩ := by
  refine ⟨?_, ?_, ?_, ?_, ?_⟩ <;>
    simp [create_update_workspace, get_all_workspaces, delete_workspace,
      login, httpCode, h]

/-- Witness for C6 at the unknown username `bob`. -/
theorem C6_witness :
    dbGet sampleDb "bob" = none ∧
    ((create_update_workspace sampleDb "bob" "w" Json.null).1 =
        .error 404 "User not found" ∧
     (get_all_workspaces sampleDb "bob").1 = .error 404 "User not found" ∧
     (delete_workspace sampleDb "bob" "w").1 = .error 404 "User not found" ∧
     httpCode (login sampleDb "bob" "p").1 = 200 ∧
     (login sampleDb "bob" "p").1 =
        .ok ⟨"error", "Username not found", none⟩) :=
  ⟨rfl, C6_unknown_user sampleDb "bob" "p" "w" Json.null rfl⟩

/-- Claim C7: workspace upsert and delete touch only the `workspaces` field
of any account document (username, password, name, email are unchanged), and
no endpoint ever removes an account from the store. -/
theorem C7_profile_and_no_account_removal (db : Store) (u u' W p n e : String)
    (S : Json) :
    ((dbGet (create_update_workspace db u W S).2 u').map profileOf =
        (dbGet db u').map profileOf ∧
     (dbGet (delete_workspace db u W).2 u').map profileOf =
        (dbGet db u').map profileOf) ∧
    ((dbGet db u').isSome →
      (dbGet (login db u p).2 u').isSome ∧
      (dbGet (signup db u p n e).2 u').isSome ∧
      (dbGet (create_update_workspace db u W S).2 u').isSome ∧
      (dbGet (get_all_workspaces db u).2 u').isSome ∧
      (dbGet (delete_workspace db u W).2 u').isSome) := by
  have hup : (dbGet (create_update_workspace db u W S).2 u').map profileOf =
      (dbGet db u').map profileOf := by
    cases hdb : dbGet db u with
    | none => simp [create_update_workspace, hdb]
    | some a => simp [create_update_workspace, hdb, profile_dbUpdateWorkspaces]
  have hdel : (dbGet (delete_workspace db u W).2 u').map profileOf =
      (dbGet db u').map profileOf := by
    cases hdb : dbGet db u with
    | none => simp [delete_workspace, hdb]
    | some a =>
      by_cases hm : wsMember a.workspaces W
      · simp [delete_workspace, hdb, hm, profile_dbUpdateWorkspaces]
      · simp [delete_workspace, hdb, hm]
  refine ⟨⟨hup, hdel⟩, fun hs => ⟨?_, ?_, ?_, ?_, ?_⟩⟩
  · rw [login_store_eq]
    exact hs
  · cases hdb : dbGet db u with
    | none => simpa [signup, hdb] using dbGet_dbSet_isSome db u _ u' hs
    | some a => simpa [signup, hdb] using hs
  · cases hdb : dbGet db u with
    | none => simpa [create_update_workspace, hdb] using hs
    | some a =>
        simpa [create_update_workspace, hdb] using
          dbGet_dbUpdateWorkspaces_isSome db u _ u' hs
  · rw [get_all_workspaces_store_eq]
    exact hs
  · cases hdb : dbGet db u with
    | none => simpa [delete_workspace, hdb] using hs
    | some a =>
      by_cases hm : wsMember a.workspaces W
      · simpa [delete_workspace, hdb, hm] using
          dbGet_dbUpdateWorkspaces_isSome db u _ u' hs
      · simpa [delete_workspace, hdb, hm] using hs

/-- Witness for C7 on the sample store. -/
theorem C7_witness :
    (dbGet sampleDb "alice").isSome = true ∧
    ((dbGet (login sampleDb "alice" "pw").2 "alice").isSome ∧
     (dbGet (signup sampleDb "alice" "pw" "n" "e").2 "alice").isSome ∧
     (dbGet (create_update_workspace sampleDb "alice" "w2" Json.null).2
        "alice").isSome ∧
     (dbGet (get_all_workspaces sampleDb "alice").2 "alice").isSome ∧
     (dbGet (delete_workspace sampleDb "alice" "w").2 "alice").isSome) :=
  ⟨rfl, (C7_profile_and_no_account_removal sampleDb "alice" "alice" "w"
    "pw" "n" "e" Json.null).2 rfl⟩

/-- Claim C8: upserting `W` leaves any other key `W2` of the user's
workspaces unchanged, and deleting `W` removes exactly `W`, leaving every
other entry unchanged. -/
theorem C8_other_entries_unchanged (db : Store) (u W W2 : String) (S : Json)
    (a : Account) (h : dbGet db u = some a) (hne : W2 ≠ W) :
    wsLookup (getWs (create_update_workspace db u W S).2 u) W2 =
      wsLookup a.workspaces W2 ∧
    wsLookup (getWs (delete_workspace db u W).2 u) W2 =
      wsLookup a.workspaces W2 ∧
    (wsMember a.workspaces W = true →
      wsLookup (getWs (delete_workspace db u W).2 u) W = none) := by
  have h1 := upsert_dbGet db u W S a h
  refine ⟨?_, ?_, ?_⟩
  · simp [getWs, get_all_workspaces, h1, wsLookup_wsInsert_ne _ _ _ _ hne]
  · by_cases hm : wsMember a.workspaces W
    · have hd := delete_dbGet db u W a h hm
      simp [getWs, get_all_workspaces, hd, wsLookup_wsErase_ne _ _ _ hne]
    · simp [getWs, get_all_workspaces, delete_workspace, h, hm]
  · intro hm
    have hd := delete_dbGet db u W a h hm
    simp [getWs, get_all_workspaces, hd, wsLookup_wsErase_self]

/-- Witness for C8 on the sample store, with `W2 = "w2"` and `W = "w"`. -/
theorem C8_witness :
    dbGet sampleDb "alice" = some sampleAccount ∧
    wsMember sampleAccount.workspaces "w" = true ∧
    wsLookup (getWs (create_update_workspace sampleDb "alice" "w"
      (Json.num 3)).2 "alice") "w2" = wsLookup sampleAccount.workspaces "w2" ∧
    wsLookup (getWs (delete_workspace sampleDb "alice" "w").2 "alice") "w2" =
      wsLookup sampleAccount.workspaces "w2" ∧
    wsLookup (getWs (delete_workspace sampleDb "alice" "w").2 "alice") "w" =
      none :=
  ⟨rfl, rfl,
   (C8_other_entries_unchanged sampleDb "alice" "w" "w2" (Json.num 3)
     sampleAccount rfl (by decide)).1,
   (C8_other_entries_unchanged sampleDb "alice" "w" "w2" (Json.num 3)
     sampleAccount rfl (by decide)).2.1,
   (C8_other_entries_unchanged sampleDb "alice" "w" "w2" (Json.num 3)
     sampleAccount rfl (by decide)).2.2 rfl⟩

/-- Claim C9: login and list-workspaces never modify any document in the
store, on success or failure. -/
theorem C9_read_only (db : Store) (u p : String) :
    (login db u p).2 = db ∧ (get_all_workspaces db u).2 = db :=
  ⟨login_store_eq db u p, get_all_workspaces_store_eq db u⟩

/-- Claim C10: every error outcome — a domain-error body from login or
signup, or an HTTP 404 from a workspace endpoint — leaves the entire store
exactly as it was before the request. -/
theorem C10_errors_atomic (db : Store) (u p n e W : String) (S : Json) :
    (loginIsDomainError (login db u p).1 = true → (login db u p).2 = db) ∧
    (signupIsDomainError (signup db u p n e).1 = true →
      (signup db u p n e).2 = db) ∧
    (isHttp404 (create_update_workspace db u W S).1 = true →
      (create_update_workspace db u W S).2 = db) ∧
    (isHttp404 (get_all_workspaces db u).1 = true →
      (get_all_workspaces db u).2 = db) ∧
    (isHttp404 (delete_workspace db u W).1 = true →
      (delete_workspace db u W).2 = db) := by
  refine ⟨fun _ => login_store_eq db u p, ?_, ?_,
    fun _ => get_all_workspaces_store_eq db u, ?_⟩
  · intro hs
    cases hdb : dbGet db u with
    | some a => simp [signup, hdb]
    | none =>
      simp [signup, hdb, signupIsDomainError] at hs
  · intro hs
    cases hdb : dbGet db u with
    | none => simp [create_update_workspace, hdb]
    | some a =>
      simp [create_update_workspace, hdb, isHttp404] at hs
  · intro hs
    cases hdb : dbGet db u with
    | none => simp [delete_workspace, hdb]
    | some a =>
      by_cases hm : wsMember a.workspaces W
      · simp [delete_workspace, hdb, hm, isHttp404] at hs
      · simp [delete_workspace, hdb, hm]

/-- Witness for C10: one error outcome per endpoint on the sample store. -/
theorem C10_witness :
    (login sampleDb "bob" "pw").2 = sampleDb ∧
    (signup sampleDb "alice" "q" "r" "s").2 = sampleDb ∧
    (create_update_workspace sampleDb "bob" "w" Json.null).2 = sampleDb ∧
    (get_all_workspaces sampleDb "bob").2 = sampleDb ∧
    (delete_workspace sampleDb "alice" "nope").2 = sampleDb :=
  ⟨(C10_errors_atomic sampleDb "bob" "pw" "n" "e" "w" Json.null).1 rfl,
   (C10_errors_atomic sampleDb "alice" "q" "r" "s" "w" Json.null).2.1 rfl,
   (C10_errors_atomic sampleDb "bob" "pw" "n" "e" "w" Json.null).2.2.1 rfl,
   (C10_errors_atomic sampleDb "bob" "pw" "n" "e" "w" Json.null).2.2.2.1 rfl,
   (C10_errors_atomic sampleDb "alice" "pw" "n" "e" "nope"
     Json.null).2.2.2.2 rfl⟩

end IntelliOS
